import Mathlib

/-!
Shallow embedding of the HealthVault EHR demo application (src/app.py).

The application is a Flask + SQLAlchemy CRUD app over four tables
(patients, visits, medications, allergies).  We model the database as an
explicit in-memory store (lists of records, ids acting as primary keys),
each POST route handler as a pure function from a store and a submitted
form to a new store plus an HTTP-level outcome (redirect / not-found) and
the list of flashed messages, and the date helper parse_date as a total
function into Option.

Conventions used throughout:
  - Python strings are Lean String; Python None for a nullable column is
    Option.none.
  - request.form is an association list; request.form.get(k) is the first
    binding of k (Werkzeug returns the first value for a repeated key).
  - Python str.strip() is pyStrip below.
  - Python truthiness on strings ("" is falsy) appears as explicit
    comparisons with "".
  - db autoincrement ids are passed in as an explicit fresh-id argument.
-/

namespace HealthVault

/-- Calendar date, as produced by datetime.date in app.py. -/
structure HDate where
  year : Nat
  month : Nat
  day : Nat
deriving DecidableEq

/-- Row of the patients table (class Patient, app.py lines 19-34). -/
structure Patient where
  id : Nat
  first_name : String
  last_name : String
  date_of_birth : Option HDate
  sex : Option String
  phone : Option String
deriving DecidableEq

/-- Row of the visits table (class Visit, app.py lines 37-45). -/
structure Visit where
  id : Nat
  patient_id : Nat
  visit_date : Option HDate
  reason : Option String
  notes : Option String
deriving DecidableEq

/-- Row of the medications table (class Medication, app.py lines 48-56). -/
structure Medication where
  id : Nat
  patient_id : Nat
  name : String
  dosage : Option String
  frequency : Option String
deriving DecidableEq

/-- Row of the allergies table (class Allergy, app.py lines 59-67). -/
structure Allergy where
  id : Nat
  patient_id : Nat
  allergen : String
  reaction : Option String
  severity : Option String
deriving DecidableEq

/-- The whole relational store (the four tables of health.db). -/
structure Store where
  patients : List Patient
  visits : List Visit
  medications : List Medication
  allergies : List Allergy
deriving DecidableEq

/-! Helpers: date parsing (parse_date, app.py lines 77-83).

parse_date returns None on the empty string, and otherwise runs
datetime.strptime(value, "%Y-%m-%d").date() catching ValueError to None.
CPython strptime compiles that format to the anchored regular expression
(\d\d\d\d)-(1[0-2]|0[1-9]|[1-9])-(3[01]|[12]\d|0[1-9]|[1-9]) with no
leftover input allowed, and then datetime(year, month, day) additionally
raises ValueError when year < MINYEAR = 1 or when the day exceeds the
length of the month.  Every ValueError path yields None. -/

/-- Python str.strip() with no argument removes leading and trailing
whitespace characters; the forms occurring here are ASCII. -/
def isPySpace (c : Char) : Bool :=
  c == ' ' || c == '\t' || c == '\n' || c == '\r' || c == '\x0b' || c == '\x0c'

/-- Python str.strip(): drop whitespace from both ends. -/
def pyStrip (s : String) : String :=
  ⟨((s.data.dropWhile isPySpace).reverse.dropWhile isPySpace).reverse⟩

/-- Split a character list at every dash, keeping empty pieces, as Python
str.split("-") does. -/
def splitDash : List Char → List (List Char)
  | [] => [[]]
  | c :: rest =>
    match splitDash rest with
    | [] => []
    | g :: gs => if c == '-' then [] :: g :: gs else (c :: g) :: gs

/-- Leap-year rule of the proleptic Gregorian calendar used by datetime. -/
def isLeapYear (y : Nat) : Bool :=
  (y % 4 == 0 && y % 100 != 0) || y % 400 == 0

/-- Number of days of month m in year y (datetime validity rule). -/
def daysInMonth (y m : Nat) : Nat :=
  if m == 2 then (if isLeapYear y then 29 else 28)
  else if m == 4 || m == 6 || m == 9 || m == 11 then 30
  else 31

/-- A decimal digit string read as a number (int() on the regex group). -/
def digitsToNat (chars : List Char) : Nat :=
  chars.foldl (fun n c => n * 10 + (c.toNat - 48)) 0

/-- The year group of strptime %Y: exactly four decimal digits. -/
def matchYear (chars : List Char) : Bool :=
  match chars with
  | [a, b, c, d] => a.isDigit && b.isDigit && c.isDigit && d.isDigit
  | _ => false

/-- The month group of strptime %m: 1[0-2], 0[1-9] or [1-9]. -/
def matchMonth (chars : List Char) : Bool :=
  match chars with
  | [a] => a.isDigit && a != '0'
  | [a, b] => (a == '0' && b.isDigit && b != '0') ||
      (a == '1' && (b == '0' || b == '1' || b == '2'))
  | _ => false

/-- The day group of strptime %d: 3[01], [12] followed by a digit, 0[1-9] or [1-9]. -/
def matchDay (chars : List Char) : Bool :=
  match chars with
  | [a] => a.isDigit && a != '0'
  | [a, b] => (a == '0' && b.isDigit && b != '0') ||
      ((a == '1' || a == '2') && b.isDigit) ||
      (a == '3' && (b == '0' || b == '1'))
  | _ => false

/-- parse_date (app.py lines 77-83).  The dash separators of the format are
literal, and none of the three groups can contain a dash, so an anchored
match is exactly a split of the input on the dash character into three
parts matching the groups; the date constructor then checks year at least
1 and day within the month. -/
def parse_date (value : String) : Option HDate :=
  if value = "" then none
  else
    match splitDash value.data with
    | [ys, ms, ds] =>
      if matchYear ys && matchMonth ms && matchDay ds then
        let y := digitsToNat ys
        let m := digitsToNat ms
        let d := digitsToNat ds
        if 1 ≤ y && 1 ≤ d && d ≤ daysInMonth y m then some ⟨y, m, d⟩
        else none
      else none
    | _ => none

/-! Forms and HTTP-level outcomes. -/

/-- A submitted form: association list of field name to value. -/
abbrev Form := List (String × String)

/-- request.form.get(k): first binding of k, if any. -/
def formGet (f : Form) (k : String) : Option String :=
  (f.find? (fun kv => kv.1 == k)).map (fun kv => kv.2)

/-- request.form.get(k, d): first binding of k, defaulting to d. -/
def formGetD (f : Form) (k d : String) : String :=
  (formGet f k).getD d

/-- Python idiom (request.form.get(k) or None): a missing key or an empty
string both become None; any other string is kept as is. -/
def strOrNone (o : Option String) : Option String :=
  match o with
  | none => none
  | some s => if s = "" then none else some s

/-- HTTP-level outcome of a handler: abort(404) / get_or_404, or a redirect
to a concrete URL built by url_for. -/
inductive Response where
  | notFound
  | redirect (url : String)
deriving DecidableEq

/-- Result of running one POST handler: the store after the request, the
response, and the messages flashed during the request. -/
structure HResult where
  store : Store
  response : Response
  flashes : List String
deriving DecidableEq

/-- url_for of the index route. -/
def url_index : String := "/"

/-- url_for of the new_patient route. -/
def url_new_patient : String := "/patients/new"

/-- url_for of the patient_detail route. -/
def url_patient_detail (pid : Nat) : String := "/patients/" ++ toString pid

/-! Lookups (Model.query.get on a primary key: first row with that id). -/

/-- Patient.query.get(patient_id). -/
def findPatient (s : Store) (pid : Nat) : Option Patient :=
  s.patients.find? (fun p => p.id == pid)

/-- Visit.query.get(visit_id). -/
def findVisit (s : Store) (vid : Nat) : Option Visit :=
  s.visits.find? (fun v => v.id == vid)

/-- Medication.query.get(medication_id). -/
def findMedication (s : Store) (mid : Nat) : Option Medication :=
  s.medications.find? (fun m => m.id == mid)

/-- Allergy.query.get(allergy_id). -/
def findAllergy (s : Store) (aid : Nat) : Option Allergy :=
  s.allergies.find? (fun a => a.id == aid)

/-! Route handlers (POST branches). -/

/-- POST branch of new_patient (app.py lines 340-355).  nid is the
autoincrement id the database would assign to the inserted row. -/
def new_patient (s : Store) (form : Form) (nid : Nat) : HResult :=
  let fn := pyStrip (formGetD form "first_name" "")
  let ln := pyStrip (formGetD form "last_name" "")
  if fn = "" || ln = "" then
    ⟨s, Response.redirect url_new_patient, ["First and last name are required"]⟩
  else
    let p : Patient :=
      { id := nid, first_name := fn, last_name := ln,
        date_of_birth := parse_date (formGetD form "date_of_birth" ""),
        sex := strOrNone (formGet form "sex"),
        phone := strOrNone (formGet form "phone") }
    ⟨{ s with patients := s.patients ++ [p] },
      Response.redirect (url_patient_detail nid), []⟩

/-- POST branch of edit_patient (app.py lines 359-370).  The ORM mutates the
fetched row in place; here the row with the matching id is replaced. -/
def edit_patient (s : Store) (pid : Nat) (form : Form) : HResult :=
  match findPatient s pid with
  | none => ⟨s, Response.notFound, []⟩
  | some p =>
    let fn := pyStrip (formGetD form "first_name" "")
    let ln := pyStrip (formGetD form "last_name" "")
    let p2 : Patient :=
      { p with
        first_name := if fn = "" then p.first_name else fn,
        last_name := if ln = "" then p.last_name else ln,
        date_of_birth :=
          match parse_date (formGetD form "date_of_birth" "") with
          | none => p.date_of_birth
          | some d => some d,
        sex := strOrNone (formGet form "sex"),
        phone := strOrNone (formGet form "phone") }
    ⟨{ s with patients := s.patients.map (fun q => if q.id == pid then p2 else q) },
      Response.redirect (url_patient_detail pid), []⟩

/-- delete_patient (app.py lines 379-384).  The relationships carry
cascade all, delete-orphan, so deleting the patient row also deletes every
visit, medication and allergy row whose patient_id is this patient. -/
def delete_patient (s : Store) (pid : Nat) : HResult :=
  match findPatient s pid with
  | none => ⟨s, Response.notFound, []⟩
  | some _ =>
    ⟨{ patients := s.patients.filter (fun p => p.id != pid),
       visits := s.visits.filter (fun v => v.patient_id != pid),
       medications := s.medications.filter (fun m => m.patient_id != pid),
       allergies := s.allergies.filter (fun a => a.patient_id != pid) },
      Response.redirect url_index, []⟩

/-- add_visit (app.py lines 388-399). -/
def add_visit (s : Store) (pid : Nat) (form : Form) (nid : Nat) : HResult :=
  match findPatient s pid with
  | none => ⟨s, Response.notFound, []⟩
  | some p =>
    let v : Visit :=
      { id := nid, patient_id := p.id,
        visit_date := parse_date (formGetD form "visit_date" ""),
        reason := strOrNone (formGet form "reason"),
        notes := strOrNone (formGet form "notes") }
    ⟨{ s with visits := s.visits ++ [v] },
      Response.redirect (url_patient_detail p.id), []⟩

/-- delete_visit (app.py lines 402-410): 404 unless the patient exists, the
visit exists, and the visit belongs to that patient. -/
def delete_visit (s : Store) (pid vid : Nat) : HResult :=
  match findPatient s pid with
  | none => ⟨s, Response.notFound, []⟩
  | some _ =>
    match findVisit s vid with
    | none => ⟨s, Response.notFound, []⟩
    | some v =>
      if v.patient_id != pid then ⟨s, Response.notFound, []⟩
      else
        ⟨{ s with visits := s.visits.filter (fun w => w.id != vid) },
          Response.redirect (url_patient_detail pid), []⟩

/-- add_medication (app.py lines 414-429). -/
def add_medication (s : Store) (pid : Nat) (form : Form) (nid : Nat) : HResult :=
  match findPatient s pid with
  | none => ⟨s, Response.notFound, []⟩
  | some p =>
    let nm := pyStrip ((formGet form "name").getD "")
    if nm = "" then
      ⟨s, Response.redirect (url_patient_detail p.id), ["Medication name is required"]⟩
    else
      let m : Medication :=
        { id := nid, patient_id := p.id, name := nm,
          dosage := strOrNone (formGet form "dosage"),
          frequency := strOrNone (formGet form "frequency") }
      ⟨{ s with medications := s.medications ++ [m] },
        Response.redirect (url_patient_detail p.id), []⟩

/-- delete_medication (app.py lines 432-440). -/
def delete_medication (s : Store) (pid mid : Nat) : HResult :=
  match findPatient s pid with
  | none => ⟨s, Response.notFound, []⟩
  | some _ =>
    match findMedication s mid with
    | none => ⟨s, Response.notFound, []⟩
    | some m =>
      if m.patient_id != pid then ⟨s, Response.notFound, []⟩
      else
        ⟨{ s with medications := s.medications.filter (fun x => x.id != mid) },
          Response.redirect (url_patient_detail pid), []⟩

/-- add_allergy (app.py lines 444-459). -/
def add_allergy (s : Store) (pid : Nat) (form : Form) (nid : Nat) : HResult :=
  match findPatient s pid with
  | none => ⟨s, Response.notFound, []⟩
  | some p =>
    let al := pyStrip ((formGet form "allergen").getD "")
    if al = "" then
      ⟨s, Response.redirect (url_patient_detail p.id), ["Allergen is required"]⟩
    else
      let a : Allergy :=
        { id := nid, patient_id := p.id, allergen := al,
          reaction := strOrNone (formGet form "reaction"),
          severity := strOrNone (formGet form "severity") }
      ⟨{ s with allergies := s.allergies ++ [a] },
        Response.redirect (url_patient_detail p.id), []⟩

/-- delete_allergy (app.py lines 462-470). -/
def delete_allergy (s : Store) (pid aid : Nat) : HResult :=
  match findPatient s pid with
  | none => ⟨s, Response.notFound, []⟩
  | some _ =>
    match findAllergy s aid with
    | none => ⟨s, Response.notFound, []⟩
    | some a =>
      if a.patient_id != pid then ⟨s, Response.notFound, []⟩
      else
        ⟨{ s with allergies := s.allergies.filter (fun x => x.id != aid) },
          Response.redirect (url_patient_detail pid), []⟩

/-! Read-only views.

index (app.py lines 332-335) lists all patients ordered by
(last_name, first_name) ascending under the storage collation, which for
these SQLite text columns is the byte order of the UTF-8 encoding; UTF-8
byte order agrees with code-point order, which is the order of Lean's
LinearOrder on String.  ORDER BY is modelled by a stable sort.

The patient detail template (PATIENT_DETAIL_HTML, app.py line 229) pipes
patient.visits through the Jinja filter sort(attribute='visit_date',
reverse=True), which calls Python sorted on the key [visit_date] with
reverse=True.  Python list comparison first tests the elements with ==,
so two absent dates compare as equal keys without error, but comparing an
absent date with a present one raises TypeError.  CPython's list sort
performs no comparison on lists of length below two, and on longer input
every element takes part in at least one comparison and the relative order
of every value pair must be established through a chain of comparisons, so
sorted raises exactly when the list holds both an absent and a present
date, returns the input unchanged when every date is absent (all keys
equal, stable sort), and otherwise sorts by date descending, stably. -/

/-- Three-way comparison of two strings (as character lists) in code-point
order, which coincides with the UTF-8 byte order used by the SQLite BINARY
collation of the text columns. -/
def cmpStr : List Char → List Char → Ordering
  | [], [] => Ordering.eq
  | [], _ :: _ => Ordering.lt
  | _ :: _, [] => Ordering.gt
  | a :: as, b :: bs =>
    if a.toNat < b.toNat then Ordering.lt
    else if b.toNat < a.toNat then Ordering.gt
    else cmpStr as bs

theorem cmpStr_swap : ∀ a b, cmpStr b a = (cmpStr a b).swap
  | [], [] => rfl
  | [], _ :: _ => rfl
  | _ :: _, [] => rfl
  | a :: as, b :: bs => by
    rcases Nat.lt_trichotomy a.toNat b.toNat with h | h | h
    · simp [cmpStr, h, Nat.lt_asymm h, Ordering.swap]
    · simp only [cmpStr, h, lt_self_iff_false, if_false]
      exact cmpStr_swap as bs
    · simp [cmpStr, h, Nat.lt_asymm h, Ordering.swap]

theorem cmpStr_eq_subst : ∀ a b, cmpStr a b = Ordering.eq →
    ∀ c, cmpStr a c = cmpStr b c
  | [], [], _, _ => rfl
  | [], _ :: _, h, _ => by simp [cmpStr] at h
  | _ :: _, [], h, _ => by simp [cmpStr] at h
  | a :: as, b :: bs, h, c => by
    have hab : a.toNat = b.toNat := by
      by_contra hne
      rcases Nat.lt_or_ge a.toNat b.toNat with h1 | h1
      · simp [cmpStr, h1] at h
      · have h2 : b.toNat < a.toNat := by omega
        simp [cmpStr, h2, Nat.lt_asymm h2] at h
    have htail : cmpStr as bs = Ordering.eq := by
      simpa [cmpStr, hab] using h
    match c with
    | [] => rfl
    | c :: cs =>
      simp only [cmpStr, hab]
      split
      · rfl
      · split
        · rfl
        · exact cmpStr_eq_subst as bs htail cs

theorem cmpStr_lt_trans : ∀ a b c, cmpStr a b = Ordering.lt →
    cmpStr b c = Ordering.lt → cmpStr a c = Ordering.lt
  | [], [], _, h1, _ => by simp [cmpStr] at h1
  | [], _ :: _, [], _, h2 => by simp [cmpStr] at h2
  | [], _ :: _, _ :: _, _, _ => rfl
  | _ :: _, [], _, h1, _ => by simp [cmpStr] at h1
  | _ :: _, _ :: _, [], _, h2 => by simp [cmpStr] at h2
  | a :: as, b :: bs, c :: cs, h1, h2 => by
    rcases Nat.lt_trichotomy a.toNat b.toNat with hab | hab | hab
    · have hbc : ¬ c.toNat < b.toNat := by
        intro hc
        simp [cmpStr, hc, Nat.lt_asymm hc] at h2
      simp [cmpStr, show a.toNat < c.toNat from by omega]
    · have htail1 : cmpStr as bs = Ordering.lt := by
        simpa [cmpStr, hab] using h1
      rcases Nat.lt_trichotomy b.toNat c.toNat with hbc | hbc | hbc
      · simp [cmpStr, show a.toNat < c.toNat from by omega]
      · have htail2 : cmpStr bs cs = Ordering.lt := by
          simpa [cmpStr, hbc] using h2
        have hac : a.toNat = c.toNat := by omega
        simp [cmpStr, hac, cmpStr_lt_trans as bs cs htail1 htail2]
      · simp [cmpStr, hbc, Nat.lt_asymm hbc] at h2
    · simp [cmpStr, hab, Nat.lt_asymm hab] at h1

theorem cmpStr_eq_subst_right (a b : List Char) (h : cmpStr a b = Ordering.eq)
    (c : List Char) : cmpStr c a = cmpStr c b := by
  rw [cmpStr_swap a c, cmpStr_eq_subst a b h c, ← cmpStr_swap b c]

/-- Ordering of the index listing (ORDER BY Patient.last_name,
Patient.first_name): last name strictly first, ties broken by first name,
with no constraint between rows agreeing on both. -/
def patientOrder (p q : Patient) : Prop :=
  cmpStr p.last_name.data q.last_name.data = Ordering.lt ∨
    (cmpStr p.last_name.data q.last_name.data = Ordering.eq ∧
      cmpStr p.first_name.data q.first_name.data ≠ Ordering.gt)

instance : DecidableRel patientOrder := fun p q => by
  unfold patientOrder
  infer_instance

instance : IsTotal Patient patientOrder := by
  constructor
  intro p q
  unfold patientOrder
  rcases h : cmpStr p.last_name.data q.last_name.data with _ | _ | _
  · exact Or.inl (Or.inl rfl)
  · have h2 : cmpStr q.last_name.data p.last_name.data = Ordering.eq := by
      rw [cmpStr_swap, h]; rfl
    rcases h3 : cmpStr p.first_name.data q.first_name.data with _ | _ | _
    · exact Or.inl (Or.inr ⟨rfl, by simp⟩)
    · exact Or.inl (Or.inr ⟨rfl, by simp⟩)
    · have h4 : cmpStr q.first_name.data p.first_name.data = Ordering.lt := by
        rw [cmpStr_swap, h3]; rfl
      exact Or.inr (Or.inr ⟨h2, by simp [h4]⟩)
  · have h2 : cmpStr q.last_name.data p.last_name.data = Ordering.lt := by
      rw [cmpStr_swap, h]; rfl
    exact Or.inr (Or.inl h2)

instance : IsTrans Patient patientOrder := by
  constructor
  intro p q r hpq hqr
  unfold patientOrder at *
  rcases hpq with h1 | ⟨h1, h1f⟩
  · rcases hqr with h2 | ⟨h2, h2f⟩
    · exact Or.inl (cmpStr_lt_trans _ _ _ h1 h2)
    · exact Or.inl (by rw [← cmpStr_eq_subst_right _ _ h2]; exact h1)
  · rcases hqr with h2 | ⟨h2, h2f⟩
    · exact Or.inl (by rw [cmpStr_eq_subst _ _ h1]; exact h2)
    · refine Or.inr ⟨by rw [cmpStr_eq_subst _ _ h1]; exact h2, ?_⟩
      rcases h3 : cmpStr p.first_name.data q.first_name.data with _ | _ | _
      · rcases h4 : cmpStr q.first_name.data r.first_name.data with _ | _ | _
        · simp [cmpStr_lt_trans _ _ _ h3 h4]
        · rw [← cmpStr_eq_subst_right _ _ h4, h3]; simp
        · exact absurd h4 h2f
      · rw [cmpStr_eq_subst _ _ h3]; exact h2f
      · exact absurd h3 h1f

/-- index (app.py lines 332-335): all patients, ordered by last name then
first name. -/
def index (s : Store) : List Patient :=
  s.patients.insertionSort patientOrder

/-- Comparison of datetime.date values: lexicographic on (year, month, day). -/
def dateLe (a b : HDate) : Bool :=
  decide (a.year < b.year ∨ (a.year = b.year ∧
    (a.month < b.month ∨ (a.month = b.month ∧ a.day ≤ b.day))))

/-- Descending-date order used by the visits table of the detail template.
The getD default is never consulted: the sort is only applied to visit
lists whose dates are all present. -/
def visitAfter (v w : Visit) : Prop :=
  dateLe (w.visit_date.getD ⟨0, 0, 0⟩) (v.visit_date.getD ⟨0, 0, 0⟩) = true

instance : DecidableRel visitAfter := fun v w =>
  inferInstanceAs (Decidable
    (dateLe (w.visit_date.getD ⟨0, 0, 0⟩) (v.visit_date.getD ⟨0, 0, 0⟩) = true))

instance : IsTotal Visit visitAfter := by
  constructor
  intro a b
  unfold visitAfter dateLe
  simp only [decide_eq_true_eq]
  omega

instance : IsTrans Visit visitAfter := by
  constructor
  intro a b c hab hbc
  unfold visitAfter dateLe at *
  simp only [decide_eq_true_eq] at *
  omega

/-- The Jinja filter sort(attribute='visit_date', reverse=True) applied to
the visits of the detail template, with Python sorted semantics as
described above: a TypeError (modelled as Except.error) exactly when both
an absent and a present date occur. -/
def sortVisitsDesc (vs : List Visit) : Except Unit (List Visit) :=
  if vs.any (fun v => v.visit_date.isNone) then
    if vs.any (fun v => v.visit_date.isSome) then Except.error ()
    else Except.ok vs
  else Except.ok (vs.insertionSort visitAfter)

/-- The patient.visits relationship: visits whose patient_id is this
patient, in insertion order. -/
def patientVisits (s : Store) (pid : Nat) : List Visit :=
  s.visits.filter (fun v => v.patient_id == pid)

/-- patient_detail (app.py lines 373-376) composed with its template's
visits table: none is get_or_404 aborting, some (Except.error ()) is the
template raising while sorting the visits, and some (Except.ok l) shows
the visits in the order l. -/
def patient_detail (s : Store) (pid : Nat) : Option (Except Unit (List Visit)) :=
  match findPatient s pid with
  | none => none
  | some p => some (sortVisitsDesc (patientVisits s p.id))

/-! Concrete stores used to instantiate the theorems below. -/

/-- Store holding patients 7 and 9; the visit, medication and allergy rows
with id 5 all belong to patient 9. -/
def wstoreCross : Store :=
  { patients := [⟨7, "Ada", "Lovelace", none, none, none⟩,
      ⟨9, "Marie", "Curie", none, none, none⟩],
    visits := [⟨5, 9, some ⟨2024, 1, 2⟩, none, none⟩],
    medications := [⟨5, 9, "Aspirin", some "100mg", none⟩],
    allergies := [⟨5, 9, "Pollen", none, some "mild"⟩] }

/-- Store holding patient 1 with two visits, one medication and one
allergy, and patient 2 owning one visit of its own. -/
def wstoreCascade : Store :=
  { patients := [⟨1, "Ada", "Lovelace", none, none, none⟩,
      ⟨2, "Marie", "Curie", none, none, none⟩],
    visits := [⟨1, 1, some ⟨2024, 1, 2⟩, some "checkup", none⟩,
      ⟨2, 1, none, none, none⟩, ⟨3, 2, some ⟨2023, 6, 1⟩, none, none⟩],
    medications := [⟨1, 1, "Aspirin", none, none⟩],
    allergies := [⟨1, 1, "Pollen", none, none⟩] }

/-- Store holding patient 1 with two visits, one with a date and one
without. -/
def wstoreMixedDates : Store :=
  { patients := [⟨1, "Ada", "Lovelace", none, none, none⟩],
    visits := [⟨1, 1, some ⟨2024, 1, 2⟩, none, none⟩, ⟨2, 1, none, none, none⟩],
    medications := [], allergies := [] }

/-! Theorems. -/

theorem char_toNat_ne_of_ne_zero (c : Char) (h : ¬ c = '0') : c.toNat ≠ 48 := by
  intro he
  exact h (Char.ext (UInt32.ext he))

theorem char_digit_toNat_bounds (c : Char) (h : c.isDigit = true) :
    48 ≤ c.toNat ∧ c.toNat ≤ 57 := by
  simp [Char.isDigit] at h
  exact ⟨h.1, h.2⟩

theorem matchMonth_bounds (ms : List Char) (h : matchMonth ms = true) :
    1 ≤ digitsToNat ms ∧ digitsToNat ms ≤ 12 := by
  match ms with
  | [a] =>
    simp only [matchMonth, Bool.and_eq_true, bne_iff_ne, ne_eq] at h
    obtain ⟨hd, hz⟩ := h
    obtain ⟨hd1, hd2⟩ := char_digit_toNat_bounds a hd
    have hz2 := char_toNat_ne_of_ne_zero a hz
    simp only [digitsToNat, List.foldl]
    omega
  | [a, b] =>
    simp only [matchMonth, Bool.or_eq_true, Bool.and_eq_true, beq_iff_eq,
      bne_iff_ne, ne_eq] at h
    simp only [digitsToNat, List.foldl]
    rcases h with ⟨⟨ha, hd⟩, hz⟩ | ⟨ha, hb⟩
    · subst ha
      obtain ⟨hd1, hd2⟩ := char_digit_toNat_bounds b hd
      have hz2 := char_toNat_ne_of_ne_zero b hz
      have h0 : ('0' : Char).toNat = 48 := rfl
      omega
    · subst ha
      have h1 : ('1' : Char).toNat = 49 := rfl
      rcases hb with (hb | hb) | hb <;> subst hb <;> simp_all
  | [] => simp [matchMonth] at h
  | _ :: _ :: _ :: _ => simp [matchMonth] at h

theorem matchDay_bounds (ds : List Char) (h : matchDay ds = true) :
    1 ≤ digitsToNat ds ∧ digitsToNat ds ≤ 31 := by
  match ds with
  | [a] =>
    simp only [matchDay, Bool.and_eq_true, bne_iff_ne, ne_eq] at h
    obtain ⟨hd, hz⟩ := h
    obtain ⟨hd1, hd2⟩ := char_digit_toNat_bounds a hd
    have hz2 := char_toNat_ne_of_ne_zero a hz
    simp only [digitsToNat, List.foldl]
    omega
  | [a, b] =>
    simp only [matchDay, Bool.or_eq_true, Bool.and_eq_true, beq_iff_eq,
      bne_iff_ne, ne_eq] at h
    simp only [digitsToNat, List.foldl]
    rcases h with (⟨⟨ha, hd⟩, hz⟩ | ⟨ha, hd⟩) | ⟨ha, hb⟩
    · subst ha
      obtain ⟨hd1, hd2⟩ := char_digit_toNat_bounds b hd
      have hz2 := char_toNat_ne_of_ne_zero b hz
      have h0 : ('0' : Char).toNat = 48 := rfl
      omega
    · obtain ⟨hd1, hd2⟩ := char_digit_toNat_bounds b hd
      have h1 : ('1' : Char).toNat = 49 := rfl
      have h2 : ('2' : Char).toNat = 50 := rfl
      rcases ha with ha | ha <;> subst ha <;> omega
    · subst ha
      have h3 : ('3' : Char).toNat = 51 := rfl
      rcases hb with hb | hb <;> subst hb <;> simp_all
  | [] => simp [matchDay] at h
  | _ :: _ :: _ :: _ => simp [matchDay] at h

theorem parse_date_sound (v : String) (d : HDate) (h : parse_date v = some d) :
    1 ≤ d.year ∧ 1 ≤ d.month ∧ d.month ≤ 12 ∧ 1 ≤ d.day ∧
      d.day ≤ daysInMonth d.year d.month := by
  unfold parse_date at h
  split at h
  · exact absurd h (by simp)
  · split at h
    · rename_i ys ms ds heq
      split at h
      · rename_i hmatch
        simp only [Bool.and_eq_true] at hmatch
        obtain ⟨⟨hy, hm⟩, hd⟩ := hmatch
        dsimp only at h
        split at h
        · rename_i hrange
          simp only [Bool.and_eq_true, decide_eq_true_eq] at hrange
          obtain ⟨⟨h1, h2⟩, h3⟩ := hrange
          obtain ⟨hm1, hm2⟩ := matchMonth_bounds ms hm
          obtain ⟨hd1, hd2⟩ := matchDay_bounds ds hd
          cases h
          exact ⟨h1, hm1, hm2, h2, h3⟩
        · exact absurd h (by simp)
      · exact absurd h (by simp)
    · exact absurd h (by simp)

/-- C6: parse_date is a total function on strings — its embedding is a
computable Lean function, mirroring that the Python helper catches
ValueError and never propagates an error — which returns an absent value
on the empty string and on every string that fails to parse as an ISO
YYYY-MM-DD calendar date, and the parsed date on success (every returned
date is a genuine calendar date: month 1-12 and day within the month).
Concrete instances witness the success, empty, invalid-calendar-date and
malformed cases. -/
theorem parse_date_total_and_correct :
    (∀ v : String, parse_date v = none ∨ ∃ d : HDate, parse_date v = some d ∧
      1 ≤ d.year ∧ 1 ≤ d.month ∧ d.month ≤ 12 ∧ 1 ≤ d.day ∧
        d.day ≤ daysInMonth d.year d.month) ∧
    parse_date "" = none ∧
    parse_date "1815-12-10" = some ⟨1815, 12, 10⟩ ∧
    parse_date "2020-02-29" = some ⟨2020, 2, 29⟩ ∧
    parse_date "2021-02-30" = none ∧
    parse_date "not-a-date" = none ∧
    parse_date "12/10/1815" = none := by
  refine ⟨?_, by decide, by decide, by decide, by decide, by decide, by decide⟩
  intro v
  match hv : parse_date v with
  | none => exact Or.inl rfl
  | some d => exact Or.inr ⟨d, rfl, parse_date_sound v d hv⟩

/-- C2: a patient-creation submission whose first or last name is blank
after stripping persists nothing (the store is returned unchanged) and
answers with a redirect back to the creation form after flashing the
validation message. -/
theorem new_patient_blank_name_rejected (s : Store) (form : Form) (nid : Nat)
    (h : pyStrip (formGetD form "first_name" "") = "" ∨
      pyStrip (formGetD form "last_name" "") = "") :
    new_patient s form nid =
      ⟨s, Response.redirect url_new_patient, ["First and last name are required"]⟩ := by
  rcases h with h | h <;> simp [new_patient, h]

/-- C2 witness: both names blank (whitespace only first name, missing last
name) on an arbitrary concrete store. -/
theorem new_patient_blank_name_rejected_witness :
    pyStrip (formGetD [("first_name", "  "), ("sex", "F")] "first_name" "") = "" ∧
    new_patient ⟨[⟨3, "Ada", "Lovelace", none, none, none⟩], [], [], []⟩
        [("first_name", "  "), ("sex", "F")] 7 =
      ⟨⟨[⟨3, "Ada", "Lovelace", none, none, none⟩], [], [], []⟩,
        Response.redirect url_new_patient, ["First and last name are required"]⟩ :=
  ⟨by decide,
    new_patient_blank_name_rejected _ _ 7 (Or.inl (by decide))⟩

/-- C9: a successful patient creation (both names non-blank) appends one
patient row in which each optional field submitted blank is stored absent:
an empty or unparseable date-of-birth string yields an absent date (and
never an error), and an empty or missing sex or phone yields an absent
string, not an empty one. -/
theorem new_patient_blank_optionals_absent (s : Store) (form : Form) (nid : Nat)
    (h1 : pyStrip (formGetD form "first_name" "") ≠ "")
    (h2 : pyStrip (formGetD form "last_name" "") ≠ "") :
    ∃ p : Patient,
      (new_patient s form nid).store.patients = s.patients ++ [p] ∧
      (new_patient s form nid).store.visits = s.visits ∧
      p.date_of_birth = parse_date (formGetD form "date_of_birth" "") ∧
      (formGetD form "date_of_birth" "" = "" → p.date_of_birth = none) ∧
      (parse_date (formGetD form "date_of_birth" "") = none → p.date_of_birth = none) ∧
      (formGet form "sex" = none ∨ formGet form "sex" = some "" → p.sex = none) ∧
      (formGet form "phone" = none ∨ formGet form "phone" = some "" → p.phone = none) := by
  refine ⟨Patient.mk nid (pyStrip (formGetD form "first_name" ""))
      (pyStrip (formGetD form "last_name" ""))
      (parse_date (formGetD form "date_of_birth" ""))
      (strOrNone (formGet form "sex")) (strOrNone (formGet form "phone")),
      ?_, ?_, rfl, ?_, ?_, ?_, ?_⟩
  · simp [new_patient, h1, h2]
  · simp [new_patient, h1, h2]
  · intro hd
    simp [new_patient, h1, h2, hd, parse_date]
  · intro hd
    simp [new_patient, h1, h2, hd]
  · rintro (hs | hs) <;> simp [new_patient, h1, h2, hs, strOrNone]
  · rintro (hs | hs) <;> simp [new_patient, h1, h2, hs, strOrNone]

/-- C9 witness: creation with non-blank names, an unparseable date of
birth and an empty sex field, on the empty store. -/
theorem new_patient_blank_optionals_absent_witness :
    pyStrip (formGetD [("first_name", "Ada"), ("last_name", "Lovelace"),
        ("date_of_birth", "dunno"), ("sex", "")] "first_name" "") ≠ "" ∧
    pyStrip (formGetD [("first_name", "Ada"), ("last_name", "Lovelace"),
        ("date_of_birth", "dunno"), ("sex", "")] "last_name" "") ≠ "" ∧
    ∃ p : Patient,
      (new_patient ⟨[], [], [], []⟩ [("first_name", "Ada"), ("last_name", "Lovelace"),
          ("date_of_birth", "dunno"), ("sex", "")] 1).store.patients = [] ++ [p] ∧
      (new_patient ⟨[], [], [], []⟩ [("first_name", "Ada"), ("last_name", "Lovelace"),
          ("date_of_birth", "dunno"), ("sex", "")] 1).store.visits = [] ∧
      p.date_of_birth = parse_date (formGetD [("first_name", "Ada"), ("last_name", "Lovelace"),
          ("date_of_birth", "dunno"), ("sex", "")] "date_of_birth" "") ∧
      (formGetD [("first_name", "Ada"), ("last_name", "Lovelace"),
          ("date_of_birth", "dunno"), ("sex", "")] "date_of_birth" "" = "" →
        p.date_of_birth = none) ∧
      (parse_date (formGetD [("first_name", "Ada"), ("last_name", "Lovelace"),
          ("date_of_birth", "dunno"), ("sex", "")] "date_of_birth" "") = none →
        p.date_of_birth = none) ∧
      (formGet [("first_name", "Ada"), ("last_name", "Lovelace"),
          ("date_of_birth", "dunno"), ("sex", "")] "sex" = none ∨
        formGet [("first_name", "Ada"), ("last_name", "Lovelace"),
          ("date_of_birth", "dunno"), ("sex", "")] "sex" = some "" → p.sex = none) ∧
      (formGet [("first_name", "Ada"), ("last_name", "Lovelace"),
          ("date_of_birth", "dunno"), ("sex", "")] "phone" = none ∨
        formGet [("first_name", "Ada"), ("last_name", "Lovelace"),
          ("date_of_birth", "dunno"), ("sex", "")] "phone" = some "" → p.phone = none) :=
  ⟨by decide, by decide,
    new_patient_blank_optionals_absent ⟨[], [], [], []⟩ _ 1 (by decide) (by decide)⟩

/-- C7: the index listing is exactly the stored patients, reordered so
that it is sorted by last name ascending with ties broken by first name
ascending. -/
theorem index_sorted_by_name (s : Store) :
    List.Sorted patientOrder (index s) ∧ (index s).Perm s.patients :=
  ⟨List.sorted_insertionSort patientOrder s.patients,
    List.perm_insertionSort patientOrder s.patients⟩

theorem find_replace_patient (l : List Patient) (pid : Nat) (p2 : Patient)
    (h : (l.find? (fun q => q.id == pid)).isSome) (hid : p2.id = pid) :
    (l.map (fun q => if q.id == pid then p2 else q)).find? (fun q => q.id == pid)
      = some p2 := by
  induction l with
  | nil => simp at h
  | cons a l ih =>
    by_cases ha : a.id = pid
    · simp [ha, hid]
    · have ha2 : ¬ ((a.id == pid) = true) := by simp [ha]
      rw [List.find?_cons_of_neg l ha2] at h
      rw [List.map_cons, if_neg ha2,
        List.find?_cons_of_neg (l.map (fun q => if q.id == pid then p2 else q)) ha2]
      exact ih h

/-- C4: editing an existing patient with a blank (after stripping) first
or last name keeps the stored name, and an empty or unparseable
date-of-birth string keeps the stored date of birth. -/
theorem edit_patient_blank_keeps_fields (s : Store) (pid : Nat) (p : Patient)
    (form : Form) (hp : findPatient s pid = some p) :
    ∃ p2 : Patient,
      findPatient (edit_patient s pid form).store pid = some p2 ∧
      (pyStrip (formGetD form "first_name" "") = "" → p2.first_name = p.first_name) ∧
      (pyStrip (formGetD form "last_name" "") = "" → p2.last_name = p.last_name) ∧
      (parse_date (formGetD form "date_of_birth" "") = none →
        p2.date_of_birth = p.date_of_birth) := by
  have hpid : p.id = pid := by simpa using List.find?_some hp
  refine ⟨Patient.mk p.id
      (if pyStrip (formGetD form "first_name" "") = "" then p.first_name
        else pyStrip (formGetD form "first_name" ""))
      (if pyStrip (formGetD form "last_name" "") = "" then p.last_name
        else pyStrip (formGetD form "last_name" ""))
      (match parse_date (formGetD form "date_of_birth" "") with
        | none => p.date_of_birth
        | some d => some d)
      (strOrNone (formGet form "sex")) (strOrNone (formGet form "phone")),
      ?_, ?_, ?_, ?_⟩
  · have hstore : (edit_patient s pid form).store.patients
        = s.patients.map (fun q => if q.id == pid then Patient.mk p.id
            (if pyStrip (formGetD form "first_name" "") = "" then p.first_name
              else pyStrip (formGetD form "first_name" ""))
            (if pyStrip (formGetD form "last_name" "") = "" then p.last_name
              else pyStrip (formGetD form "last_name" ""))
            (match parse_date (formGetD form "date_of_birth" "") with
              | none => p.date_of_birth
              | some d => some d)
            (strOrNone (formGet form "sex")) (strOrNone (formGet form "phone"))
          else q) := by
      simp [edit_patient, hp]
    show (findPatient (edit_patient s pid form).store pid) = _
    unfold findPatient
    rw [hstore]
    have hp2 : List.find? (fun q => q.id == pid) s.patients = some p := hp
    exact find_replace_patient s.patients pid _ (by rw [hp2]; rfl) hpid
  · intro hb
    simp [hb]
  · intro hb
    simp [hb]
  · intro hd
    simp [hd]

/-- C4 witness: editing patient 1 with a blank last name, a whitespace
first name and an unparseable date keeps all three stored fields. -/
theorem edit_patient_blank_keeps_fields_witness :
    findPatient ⟨[⟨1, "Grace", "Hopper", some ⟨1906, 12, 9⟩, none, none⟩], [], [], []⟩ 1
        = some ⟨1, "Grace", "Hopper", some ⟨1906, 12, 9⟩, none, none⟩ ∧
    ∃ p2 : Patient,
      findPatient (edit_patient
          ⟨[⟨1, "Grace", "Hopper", some ⟨1906, 12, 9⟩, none, none⟩], [], [], []⟩ 1
          [("first_name", " "), ("last_name", ""), ("date_of_birth", "soon")]).store 1
        = some p2 ∧
      (pyStrip (formGetD [("first_name", " "), ("last_name", ""),
          ("date_of_birth", "soon")] "first_name" "") = "" → p2.first_name = "Grace") ∧
      (pyStrip (formGetD [("first_name", " "), ("last_name", ""),
          ("date_of_birth", "soon")] "last_name" "") = "" → p2.last_name = "Hopper") ∧
      (parse_date (formGetD [("first_name", " "), ("last_name", ""),
          ("date_of_birth", "soon")] "date_of_birth" "") = none →
        p2.date_of_birth = some ⟨1906, 12, 9⟩) :=
  ⟨by decide,
    edit_patient_blank_keeps_fields
      ⟨[⟨1, "Grace", "Hopper", some ⟨1906, 12, 9⟩, none, none⟩], [], [], []⟩ 1
      ⟨1, "Grace", "Hopper", some ⟨1906, 12, 9⟩, none, none⟩
      [("first_name", " "), ("last_name", ""), ("date_of_birth", "soon")]
      (by decide)⟩

/-- C10: editing an existing patient always overwrites sex and phone with
the submitted value, an empty or missing submission clearing them to
absent, while first name, last name and date of birth keep their stored
value when the submission is blank or unparseable — so an edit can clear
sex and phone but can never clear a name or a date of birth. -/
theorem edit_patient_overwrites_sex_phone (s : Store) (pid : Nat) (p : Patient)
    (form : Form) (hp : findPatient s pid = some p) :
    ∃ p2 : Patient,
      findPatient (edit_patient s pid form).store pid = some p2 ∧
      p2.sex = strOrNone (formGet form "sex") ∧
      p2.phone = strOrNone (formGet form "phone") ∧
      (formGet form "sex" = some "" ∨ formGet form "sex" = none → p2.sex = none) ∧
      (formGet form "phone" = some "" ∨ formGet form "phone" = none → p2.phone = none) ∧
      (pyStrip (formGetD form "first_name" "") = "" → p2.first_name = p.first_name) ∧
      (pyStrip (formGetD form "last_name" "") = "" → p2.last_name = p.last_name) ∧
      (parse_date (formGetD form "date_of_birth" "") = none →
        p2.date_of_birth = p.date_of_birth) := by
  have hpid : p.id = pid := by simpa using List.find?_some hp
  refine ⟨Patient.mk p.id
      (if pyStrip (formGetD form "first_name" "") = "" then p.first_name
        else pyStrip (formGetD form "first_name" ""))
      (if pyStrip (formGetD form "last_name" "") = "" then p.last_name
        else pyStrip (formGetD form "last_name" ""))
      (match parse_date (formGetD form "date_of_birth" "") with
        | none => p.date_of_birth
        | some d => some d)
      (strOrNone (formGet form "sex")) (strOrNone (formGet form "phone")),
      ?_, rfl, rfl, ?_, ?_, ?_, ?_, ?_⟩
  · have hstore : (edit_patient s pid form).store.patients
        = s.patients.map (fun q => if q.id == pid then Patient.mk p.id
            (if pyStrip (formGetD form "first_name" "") = "" then p.first_name
              else pyStrip (formGetD form "first_name" ""))
            (if pyStrip (formGetD form "last_name" "") = "" then p.last_name
              else pyStrip (formGetD form "last_name" ""))
            (match parse_date (formGetD form "date_of_birth" "") with
              | none => p.date_of_birth
              | some d => some d)
            (strOrNone (formGet form "sex")) (strOrNone (formGet form "phone"))
          else q) := by
      simp [edit_patient, hp]
    show (findPatient (edit_patient s pid form).store pid) = _
    unfold findPatient
    rw [hstore]
    have hp2 : List.find? (fun q => q.id == pid) s.patients = some p := hp
    exact find_replace_patient s.patients pid _ (by rw [hp2]; rfl) hpid
  · rintro (hs | hs) <;> simp [hs, strOrNone]
  · rintro (hs | hs) <;> simp [hs, strOrNone]
  · intro hb
    simp [hb]
  · intro hb
    simp [hb]
  · intro hd
    simp [hd]

/-- C10 witness: editing patient 1, whose sex and phone are set, with an
empty sex field and no phone field clears both to absent while the blank
name and date submissions keep the stored values. -/
theorem edit_patient_overwrites_sex_phone_witness :
    findPatient ⟨[⟨1, "Grace", "Hopper", some ⟨1906, 12, 9⟩, some "F",
        some "555"⟩], [], [], []⟩ 1
      = some ⟨1, "Grace", "Hopper", some ⟨1906, 12, 9⟩, some "F", some "555"⟩ ∧
    ∃ p2 : Patient,
      findPatient (edit_patient
          ⟨[⟨1, "Grace", "Hopper", some ⟨1906, 12, 9⟩, some "F", some "555"⟩],
            [], [], []⟩ 1 [("first_name", ""), ("last_name", ""), ("sex", "")]).store 1
        = some p2 ∧
      p2.sex = strOrNone (formGet [("first_name", ""), ("last_name", ""),
        ("sex", "")] "sex") ∧
      p2.phone = strOrNone (formGet [("first_name", ""), ("last_name", ""),
        ("sex", "")] "phone") ∧
      (formGet [("first_name", ""), ("last_name", ""), ("sex", "")] "sex" = some "" ∨
        formGet [("first_name", ""), ("last_name", ""), ("sex", "")] "sex" = none →
        p2.sex = none) ∧
      (formGet [("first_name", ""), ("last_name", ""), ("sex", "")] "phone" = some "" ∨
        formGet [("first_name", ""), ("last_name", ""), ("sex", "")] "phone" = none →
        p2.phone = none) ∧
      (pyStrip (formGetD [("first_name", ""), ("last_name", ""), ("sex", "")]
          "first_name" "") = "" → p2.first_name = "Grace") ∧
      (pyStrip (formGetD [("first_name", ""), ("last_name", ""), ("sex", "")]
          "last_name" "") = "" → p2.last_name = "Hopper") ∧
      (parse_date (formGetD [("first_name", ""), ("last_name", ""), ("sex", "")]
          "date_of_birth" "") = none → p2.date_of_birth = some ⟨1906, 12, 9⟩) :=
  ⟨by decide,
    edit_patient_overwrites_sex_phone
      ⟨[⟨1, "Grace", "Hopper", some ⟨1906, 12, 9⟩, some "F", some "555"⟩], [], [], []⟩ 1
      ⟨1, "Grace", "Hopper", some ⟨1906, 12, 9⟩, some "F", some "555"⟩
      [("first_name", ""), ("last_name", ""), ("sex", "")]
      (by decide)⟩

/-- C3: deleting an existing patient answers with a redirect to the index,
removes the patient row and every visit, medication and allergy row owned
by it, leaves every row of other patients in place, and a subsequent
detail fetch for that patient id reports not-found. -/
theorem delete_patient_cascades (s : Store) (pid : Nat)
    (hp : (findPatient s pid).isSome) :
    (delete_patient s pid).response = Response.redirect url_index ∧
    findPatient (delete_patient s pid).store pid = none ∧
    patient_detail (delete_patient s pid).store pid = none ∧
    (∀ q ∈ (delete_patient s pid).store.patients, q.id ≠ pid) ∧
    (∀ v ∈ (delete_patient s pid).store.visits, v.patient_id ≠ pid) ∧
    (∀ m ∈ (delete_patient s pid).store.medications, m.patient_id ≠ pid) ∧
    (∀ a ∈ (delete_patient s pid).store.allergies, a.patient_id ≠ pid) ∧
    (∀ q ∈ s.patients, q.id ≠ pid → q ∈ (delete_patient s pid).store.patients) ∧
    (∀ v ∈ s.visits, v.patient_id ≠ pid → v ∈ (delete_patient s pid).store.visits) ∧
    (∀ m ∈ s.medications, m.patient_id ≠ pid →
      m ∈ (delete_patient s pid).store.medications) ∧
    (∀ a ∈ s.allergies, a.patient_id ≠ pid →
      a ∈ (delete_patient s pid).store.allergies) := by
  obtain ⟨p, hp2⟩ := Option.isSome_iff_exists.mp hp
  have hst : (delete_patient s pid).store =
      ⟨s.patients.filter (fun q => q.id != pid),
        s.visits.filter (fun v => v.patient_id != pid),
        s.medications.filter (fun m => m.patient_id != pid),
        s.allergies.filter (fun a => a.patient_id != pid)⟩ := by
    simp [delete_patient, hp2]
  have hresp : (delete_patient s pid).response = Response.redirect url_index := by
    simp [delete_patient, hp2]
  have hnone : findPatient (delete_patient s pid).store pid = none := by
    rw [hst]
    unfold findPatient
    rw [List.find?_eq_none]
    intro q hq
    simp only [List.mem_filter, bne_iff_ne, ne_eq] at hq
    simp [hq.2]
  refine ⟨hresp, hnone, ?_, ?_, ?_, ?_, ?_, ?_, ?_, ?_, ?_⟩
  · simp [patient_detail, hnone]
  · intro q hq
    rw [hst] at hq
    simp only [List.mem_filter, bne_iff_ne, ne_eq] at hq
    exact hq.2
  · intro v hv
    rw [hst] at hv
    simp only [List.mem_filter, bne_iff_ne, ne_eq] at hv
    exact hv.2
  · intro m hm
    rw [hst] at hm
    simp only [List.mem_filter, bne_iff_ne, ne_eq] at hm
    exact hm.2
  · intro a ha
    rw [hst] at ha
    simp only [List.mem_filter, bne_iff_ne, ne_eq] at ha
    exact ha.2
  · intro q hq hne
    rw [hst]
    simp [List.mem_filter, hq, hne]
  · intro v hv hne
    rw [hst]
    simp [List.mem_filter, hv, hne]
  · intro m hm hne
    rw [hst]
    simp [List.mem_filter, hm, hne]
  · intro a ha hne
    rw [hst]
    simp [List.mem_filter, ha, hne]

/-- C3 witness: deleting patient 1 of wstoreCascade (two visits, one
medication, one allergy, plus records of patient 2). -/
theorem delete_patient_cascades_witness :
    (findPatient wstoreCascade 1).isSome ∧
    (delete_patient wstoreCascade 1).response = Response.redirect url_index ∧
    findPatient (delete_patient wstoreCascade 1).store 1 = none ∧
    patient_detail (delete_patient wstoreCascade 1).store 1 = none ∧
    (∀ v ∈ (delete_patient wstoreCascade 1).store.visits, v.patient_id ≠ 1) ∧
    (∀ v ∈ wstoreCascade.visits, v.patient_id ≠ 1 →
      v ∈ (delete_patient wstoreCascade 1).store.visits) := by
  have h := delete_patient_cascades wstoreCascade 1 (by decide)
  exact ⟨by decide, h.1, h.2.1, h.2.2.1, h.2.2.2.2.1, h.2.2.2.2.2.2.2.2.1⟩

/-- C1: a delete request for a visit, medication or allergy whose stored
owning-patient id differs from the patient id in the URL path answers
not-found and leaves the store completely unchanged, even though both the
patient and the child record exist. -/
theorem delete_child_cross_patient_notfound :
    (∀ (s : Store) (pid vid : Nat) (v : Visit),
      (findPatient s pid).isSome → findVisit s vid = some v → v.patient_id ≠ pid →
      delete_visit s pid vid = ⟨s, Response.notFound, []⟩) ∧
    (∀ (s : Store) (pid mid : Nat) (m : Medication),
      (findPatient s pid).isSome → findMedication s mid = some m → m.patient_id ≠ pid →
      delete_medication s pid mid = ⟨s, Response.notFound, []⟩) ∧
    (∀ (s : Store) (pid aid : Nat) (a : Allergy),
      (findPatient s pid).isSome → findAllergy s aid = some a → a.patient_id ≠ pid →
      delete_allergy s pid aid = ⟨s, Response.notFound, []⟩) := by
  refine ⟨?_, ?_, ?_⟩ <;> intro s pid cid c hp hc hne <;>
    obtain ⟨p, hp2⟩ := Option.isSome_iff_exists.mp hp
  · simp [delete_visit, hp2, hc, hne]
  · simp [delete_medication, hp2, hc, hne]
  · simp [delete_allergy, hp2, hc, hne]

/-- C1 witness: patient 7 exists, and visit, medication and allergy rows
with id 5 exist but belong to patient 9; deleting them through paths that
name patient 7 is a not-found no-op in all three cases. -/
theorem delete_child_cross_patient_notfound_witness :
    (findPatient wstoreCross 7).isSome ∧
    findVisit wstoreCross 5 = some ⟨5, 9, some ⟨2024, 1, 2⟩, none, none⟩ ∧
    findMedication wstoreCross 5 = some ⟨5, 9, "Aspirin", some "100mg", none⟩ ∧
    findAllergy wstoreCross 5 = some ⟨5, 9, "Pollen", none, some "mild"⟩ ∧
    delete_visit wstoreCross 7 5 = ⟨wstoreCross, Response.notFound, []⟩ ∧
    delete_medication wstoreCross 7 5 = ⟨wstoreCross, Response.notFound, []⟩ ∧
    delete_allergy wstoreCross 7 5 = ⟨wstoreCross, Response.notFound, []⟩ :=
  ⟨by decide, by decide, by decide, by decide,
    delete_child_cross_patient_notfound.1 wstoreCross 7 5
      ⟨5, 9, some ⟨2024, 1, 2⟩, none, none⟩ (by decide) (by decide) (by decide),
    delete_child_cross_patient_notfound.2.1 wstoreCross 7 5
      ⟨5, 9, "Aspirin", some "100mg", none⟩ (by decide) (by decide) (by decide),
    delete_child_cross_patient_notfound.2.2 wstoreCross 7 5
      ⟨5, 9, "Pollen", none, some "mild"⟩ (by decide) (by decide) (by decide)⟩

/-- C8: when the owning patient exists, adding a medication whose name is
blank after stripping, or an allergy whose allergen is blank after
stripping, persists nothing (the store is returned unchanged) and answers
with a redirect to that patient's detail view after flashing the
validation message. -/
theorem add_child_blank_required_rejected :
    (∀ (s : Store) (pid nid : Nat) (form : Form) (p : Patient),
      findPatient s pid = some p → pyStrip ((formGet form "name").getD "") = "" →
      add_medication s pid form nid =
        ⟨s, Response.redirect (url_patient_detail pid), ["Medication name is required"]⟩) ∧
    (∀ (s : Store) (pid nid : Nat) (form : Form) (p : Patient),
      findPatient s pid = some p → pyStrip ((formGet form "allergen").getD "") = "" →
      add_allergy s pid form nid =
        ⟨s, Response.redirect (url_patient_detail pid), ["Allergen is required"]⟩) := by
  constructor <;> intro s pid nid form p hp hb <;>
    have hpid : p.id = pid := by simpa using List.find?_some hp
  · simp [add_medication, hp, hb, hpid]
  · simp [add_allergy, hp, hb, hpid]

/-- C8 witness: adding a medication with a whitespace-only name and an
allergy with a missing allergen field to existing patient 7. -/
theorem add_child_blank_required_rejected_witness :
    findPatient wstoreCross 7 = some ⟨7, "Ada", "Lovelace", none, none, none⟩ ∧
    pyStrip ((formGet [("name", " "), ("dosage", "1g")] "name").getD "") = "" ∧
    pyStrip ((formGet [("reaction", "rash")] "allergen").getD "") = "" ∧
    add_medication wstoreCross 7 [("name", " "), ("dosage", "1g")] 6 =
      ⟨wstoreCross, Response.redirect (url_patient_detail 7),
        ["Medication name is required"]⟩ ∧
    add_allergy wstoreCross 7 [("reaction", "rash")] 6 =
      ⟨wstoreCross, Response.redirect (url_patient_detail 7), ["Allergen is required"]⟩ :=
  ⟨by decide, by decide, by decide,
    add_child_blank_required_rejected.1 wstoreCross 7 6 [("name", " "), ("dosage", "1g")]
      ⟨7, "Ada", "Lovelace", none, none, none⟩ (by decide) (by decide),
    add_child_blank_required_rejected.2 wstoreCross 7 6 [("reaction", "rash")]
      ⟨7, "Ada", "Lovelace", none, none, none⟩ (by decide) (by decide)⟩

theorem sortVisitsDesc_all_some (vs : List Visit)
    (h : ∀ v ∈ vs, v.visit_date.isSome) :
    sortVisitsDesc vs = Except.ok (vs.insertionSort visitAfter) := by
  unfold sortVisitsDesc
  rw [if_neg]
  simp only [List.any_eq_true, not_exists]
  intro v
  rintro ⟨hv, hnone⟩
  have := h v hv
  simp_all

theorem sortVisitsDesc_all_none (vs : List Visit)
    (h : ∀ v ∈ vs, v.visit_date = none) :
    sortVisitsDesc vs = Except.ok vs := by
  unfold sortVisitsDesc
  cases vs with
  | nil => simp [List.insertionSort]
  | cons v vs =>
    have h1 : ((v :: vs).any fun w => w.visit_date.isNone) = true := by
      simp only [List.any_eq_true]
      exact ⟨v, List.mem_cons_self v vs, by simp [h v (List.mem_cons_self v vs)]⟩
    have h2 : ((v :: vs).any fun w => w.visit_date.isSome) = false := by
      simp only [List.any_eq_false]
      intro w hw
      simp [h w hw]
    rw [if_pos h1, if_neg (by simp [h2])]

theorem sortVisitsDesc_mixed (vs : List Visit)
    (h1 : ∃ v ∈ vs, v.visit_date = none) (h2 : ∃ v ∈ vs, v.visit_date.isSome) :
    sortVisitsDesc vs = Except.error () := by
  unfold sortVisitsDesc
  obtain ⟨v1, hv1, hd1⟩ := h1
  obtain ⟨v2, hv2, hd2⟩ := h2
  rw [if_pos, if_pos]
  · simp only [List.any_eq_true]
    exact ⟨v2, hv2, hd2⟩
  · simp only [List.any_eq_true]
    exact ⟨v1, hv1, by simp [hd1]⟩

/-- C5 amended: on the detail view of an existing patient, when every one
of the patient's visits has a date the visits render sorted by date
descending (a permutation of the stored visits sorted under visitAfter);
when every visit lacks a date they render in stored order; but when the
visits mix present and absent dates the template's sort raises a type
error and the view fails to render. -/
theorem patient_detail_visit_order (s : Store) (pid : Nat) (p : Patient)
    (hp : findPatient s pid = some p) :
    ((∀ v ∈ patientVisits s pid, v.visit_date.isSome) →
      ∃ l, patient_detail s pid = some (Except.ok l) ∧
        List.Sorted visitAfter l ∧ l.Perm (patientVisits s pid)) ∧
    ((∀ v ∈ patientVisits s pid, v.visit_date = none) →
      patient_detail s pid = some (Except.ok (patientVisits s pid))) ∧
    ((∃ v ∈ patientVisits s pid, v.visit_date = none) →
      (∃ v ∈ patientVisits s pid, v.visit_date.isSome) →
      patient_detail s pid = some (Except.error ())) := by
  have hpid : p.id = pid := by simpa using List.find?_some hp
  have hdet : patient_detail s pid = some (sortVisitsDesc (patientVisits s pid)) := by
    simp [patient_detail, hp, hpid]
  refine ⟨?_, ?_, ?_⟩
  · intro hall
    exact ⟨(patientVisits s pid).insertionSort visitAfter,
      by rw [hdet, sortVisitsDesc_all_some _ hall],
      List.sorted_insertionSort visitAfter (patientVisits s pid),
      List.perm_insertionSort visitAfter (patientVisits s pid)⟩
  · intro hnone
    rw [hdet, sortVisitsDesc_all_none _ hnone]
  · intro h1 h2
    rw [hdet, sortVisitsDesc_mixed _ h1 h2]

/-- C5 witness: patient 1 of wstoreCascade owns visits 1 (dated) and 2
(undated), a mixed list, so the detail view fails with a type error; the
singleton dated visit list of patient 2 renders sorted. -/
theorem patient_detail_visit_order_witness :
    findPatient wstoreCascade 1 = some ⟨1, "Ada", "Lovelace", none, none, none⟩ ∧
    (∃ v ∈ patientVisits wstoreCascade 1, v.visit_date = none) ∧
    (∃ v ∈ patientVisits wstoreCascade 1, v.visit_date.isSome) ∧
    patient_detail wstoreCascade 1 = some (Except.error ()) := by
  have h := patient_detail_visit_order wstoreCascade 1
    ⟨1, "Ada", "Lovelace", none, none, none⟩ (by decide)
  refine ⟨by decide, ?_, ?_, ?_⟩
  · exact ⟨⟨2, 1, none, none, none⟩, by decide, rfl⟩
  · exact ⟨⟨1, 1, some ⟨2024, 1, 2⟩, some "checkup", none⟩, by decide, rfl⟩
  · exact h.2.2 ⟨⟨2, 1, none, none, none⟩, by decide, rfl⟩
      ⟨⟨1, 1, some ⟨2024, 1, 2⟩, some "checkup", none⟩, by decide, rfl⟩

/-- C5 counterexample: the claim says the detail view never fails and
shows absent-dated visits as if their date were minimal, but for patient 1
of wstoreMixedDates, who has one dated and one undated visit, the
template's sort raises (Python TypeError comparing None with a date), so
the view produces an error instead of any visit list. -/
theorem patient_detail_mixed_dates_fails :
    patient_detail wstoreMixedDates 1 = some (Except.error ()) := rfl

end HealthVault
